import Mathlib

/-!
# Verification of the Job-Crawler configuration API (`src/api/app.py`)

Shallow embedding of the Flask handler layer in `src/api/app.py`:

* `Profile`, `Store`, `GlobalConfig` — the data model (a profile is keyed by
  email; the store is the list of profile rows of the external database).
* `StoreOps` — the interface to the external profile-management module
  (`src/database/profile_manager.py`, not part of the given sources).  Each
  operation returns its outcome paired with the store it leaves behind; an
  exception message models a Python exception escaping the data layer, and
  the store accompanying it keeps all writes committed before the raise.
* `specOps` — the non-failing instance of `StoreOps`, modelled from the spec
  (the module itself is absent from the sources).
* `get_config`, `update_config`, `get_profiles`, `get_profile` — the four
  route handlers, translated statement by statement from `app.py`; the
  trailing `match … | .error e => (500, {error: e})` is the `try/except`
  block of each handler.
-/

/-- A user profile row.  Fields are the ones read or written by `app.py`
together with the attributes named by the data model (display name, active
flag).  Salary and experience values are JSON integers. -/
structure Profile where
  email : String
  name : String
  preferred_locations : List String
  expected_salary_min : Int
  expected_salary_max : Int
  experience_years : Int
  current_role : String
  primary_skills : List String
  is_active : Bool
deriving Repr, DecidableEq

/-- The profile table of the external database. -/
abbrev Store := List Profile

/-- The process-wide static configuration object `config.config.Config`
(only the attributes `app.py` reads). -/
structure GlobalConfig where
  PREFERRED_LOCATIONS : List String
  MIN_SALARY : Int
  MAX_SALARY : Int
  EMAIL_RECIPIENT : String
  ENABLE_USER_PROFILES : Bool
deriving Repr, DecidableEq

/-- Server-side mutable state seen by a handler: the profile store plus the
global configuration object. -/
structure ServerState where
  store : Store
  config : GlobalConfig
deriving Repr, DecidableEq

/-- One entry of the `salary_ranges` list of a `POST /api/config` body:
a JSON object whose `min` and `max` keys may each be absent
(`r.get('min')` is `None` exactly when the field is `none` here). -/
structure SalaryRange where
  min? : Option Int
  max? : Option Int
deriving Repr, DecidableEq

/-- The JSON body of `POST /api/config`, after the `data.get(…, default)`
extraction of lines 68–73 of `app.py`: absent keys have already been
replaced by their defaults (`[]` for the lists, `None` for the experience
bounds, `''` for the job title). -/
structure ConfigRequest where
  receiver_emails : List String
  locations : List String
  salary_ranges : List SalaryRange
  experience_min : Option Int
  experience_max : Option Int
  job_title : String
deriving Repr, DecidableEq

/-- JSON response bodies produced by the handlers of `app.py`. -/
inductive Resp where
  /-- `{'error': msg}` -/
  | errorBody (msg : String)
  /-- `{'message': 'Configuration updated successfully', 'profiles': …,
  'updated_count': …}` -/
  | updateOk (profiles : List Profile) (updated_count : Nat)
  /-- the `config_data` payload of `GET /api/config` -/
  | configBody (preferred_locations : List String) (min_salary max_salary : Int)
      (email_recipients : List String) (profiles : List Profile)
  /-- `{'profiles': …}` -/
  | profilesBody (profiles : List Profile)
  /-- a single serialized profile -/
  | profileBody (p : Profile)
deriving Repr, DecidableEq

/-- An HTTP answer: status code and JSON body. -/
abbrev Ans := Nat × Resp

/-- Python `str.strip()`: drop leading and trailing whitespace. -/
def pyStrip (s : String) : String :=
  ⟨((s.data.dropWhile Char.isWhitespace).reverse.dropWhile Char.isWhitespace).reverse⟩

/-- Python `str.lower()` (ASCII case folding, which is all the handler's
keywords need). -/
def pyLower (s : String) : String := ⟨s.data.map Char.toLower⟩

/-- Occurrence of `pat` as a contiguous sublist. -/
def subOccurs (pat : List Char) : List Char → Bool
  | [] => pat.isEmpty
  | c :: rest => pat.isPrefixOf (c :: rest) || subOccurs pat rest

/-- Python's `pat in s` substring test. -/
def strContainsSub (s pat : String) : Bool := subOccurs pat.data s.data

/-- Python `email.split('@')[0]`: everything before the first `'@'`
(the whole string when there is none). -/
def beforeAt (s : String) : String := ⟨s.data.takeWhile (fun c => c ≠ '@')⟩

/-- The partial field update assembled in the `update_data` dict of
`update_config` (lines 93–122): `none` means the key is absent. -/
structure UpdateData where
  preferred_locations : Option (List String)
  expected_salary_min : Option Int
  expected_salary_max : Option Int
  experience_years : Option Int
  current_role : Option String
  primary_skills : Option (List String)
deriving Repr, DecidableEq

/-- The empty `update_data = {}` dict. -/
def UpdateData.empty : UpdateData := ⟨none, none, none, none, none, none⟩

/-- Lines 96–97 of `update_config`: `if locations: update_data['preferred_locations'] =
[loc.strip() for loc in locations if loc.strip()]`. -/
def udLocations (req : ConfigRequest) (ud : UpdateData) : UpdateData :=
  let stripped := (req.locations.filter (fun loc => pyStrip loc ≠ "")).map (fun loc => pyStrip loc)
  if req.locations.isEmpty then ud else
    { ud with preferred_locations := some stripped }

/-- The `all_mins` list of line 102: min values of the ranges whose `min`
key is present and truthy (non-zero). -/
def allMins (ranges : List SalaryRange) : List Int :=
  (ranges.filter (fun r => match r.min? with | some v => v ≠ 0 | none => False)).map
    (fun r => r.min?.getD 0)

/-- The `all_maxs` list of line 103: max values of the ranges whose `max`
key is present and truthy (non-zero). -/
def allMaxs (ranges : List SalaryRange) : List Int :=
  (ranges.filter (fun r => match r.max? with | some v => v ≠ 0 | none => False)).map
    (fun r => r.max?.getD 999999)

/-- Lines 100–107 of `update_config`: aggregate the salary ranges
(`min(all_mins)` / `max(all_maxs)`, each only when its list is non-empty). -/
def udSalary (req : ConfigRequest) (ud : UpdateData) : UpdateData :=
  if req.salary_ranges.isEmpty then ud else
    let ud2 := match (allMins req.salary_ranges).min? with
      | some m => { ud with expected_salary_min := some m }
      | none => ud
    match (allMaxs req.salary_ranges).max? with
      | some m => { ud2 with expected_salary_max := some m }
      | none => ud2

/-- Lines 110–111 of `update_config`:
`if experience_min is not None: update_data['experience_years'] = experience_min`. -/
def udExperience (req : ConfigRequest) (ud : UpdateData) : UpdateData :=
  match req.experience_min with
  | some v => { ud with experience_years := some v }
  | none => ud

/-- Lines 114–122 of `update_config`: set the role and derive primary
skills from keywords of the lowercased title. -/
def udTitle (req : ConfigRequest) (ud : UpdateData) : UpdateData :=
  if req.job_title = "" then ud else
    let ud2 := { ud with current_role := some req.job_title }
    if strContainsSub (pyLower req.job_title) "python" then
      { ud2 with primary_skills := some ["Python", "JavaScript", "React"] }
    else if strContainsSub (pyLower req.job_title) "react"
        || strContainsSub (pyLower req.job_title) "frontend" then
      { ud2 with primary_skills := some ["React", "JavaScript", "TypeScript"] }
    else if strContainsSub (pyLower req.job_title) "backend" then
      { ud2 with primary_skills := some ["Python", "Java", "Node.js"] }
    else ud2

/-- Lines 93–122 of `update_config`: build the `update_data` dict from the
request, as the four sequential if-blocks applied to the empty dict.  The
computation only reads the request, so it is hoisted out of the per-email
loop it textually sits in. -/
def buildUpdateData (req : ConfigRequest) : UpdateData :=
  udTitle req (udExperience req (udSalary req (udLocations req UpdateData.empty)))

/-- Modelled from the spec: applying a partial field update to a profile row
("mutated by subsequent configuration submissions (partial field updates)").
The implementation (`update_user_profile` in the absent
`src/database/profile_manager.py`) sets exactly the supplied keys and leaves
the rest of the row alone. -/
def applyUpdate (ud : UpdateData) (p : Profile) : Profile :=
  { p with
    preferred_locations := ud.preferred_locations.getD p.preferred_locations
    expected_salary_min := ud.expected_salary_min.getD p.expected_salary_min
    expected_salary_max := ud.expected_salary_max.getD p.expected_salary_max
    experience_years := ud.experience_years.getD p.experience_years
    current_role := ud.current_role.getD p.current_role
    primary_skills := ud.primary_skills.getD p.primary_skills }

/-- Modelled from the spec: the default profile created for a new email
("created on first configuration submission for an email if absent (default
profile)", an active row with the given email and display name). -/
def defaultProfile (email name : String) : Profile :=
  { email := email
    name := name
    preferred_locations := []
    expected_salary_min := 0
    expected_salary_max := 0
    experience_years := 0
    current_role := ""
    primary_skills := []
    is_active := true }

/-- The interface of the external profile-management module
(`src/database/profile_manager.py`).  Each operation returns its outcome
together with the store it leaves behind; `.error e` models a Python
exception with message `str(e)` escaping the data layer into the handler's
`try` block, and the accompanying store still reflects whatever writes were
committed before the raise — there is no rollback. -/
structure StoreOps where
  get_all_active_profiles : Store → Except String (List Profile) × Store
  get_user_profile : String → Store → Except String (Option Profile) × Store
  create_default_profile : String → String → Store → Except String (Option Profile) × Store
  update_user_profile : String → UpdateData → Store → Except String (Option Profile) × Store

/-- Modelled from the spec: the profile-management module itself
(`src/database/profile_manager.py` is not among the given sources).
Profiles are keyed by email ("profile email is unique and treated as
primary key"); lookups find the row for an email, creation inserts the
default profile, updates merge the supplied fields into the row, and the
active listing returns the rows not marked inactive. -/
def specOps : StoreOps where
  get_all_active_profiles s := (.ok (s.filter (fun p => p.is_active)), s)
  get_user_profile email s := (.ok (s.find? (fun p => p.email == email)), s)
  create_default_profile email name s :=
    let p := defaultProfile email name
    (.ok (some p), s ++ [p])
  update_user_profile email ud s :=
    let s' := s.map (fun p => if p.email == email then applyUpdate ud p else p)
    (.ok (s'.find? (fun p => p.email == email)), s')

/-- The per-email loop of `update_config` (lines 80–127): for each email,
skip it when blank, otherwise fetch-or-create its profile and, when a
profile is at hand, merge `update_data` into it and collect the updated
row.  `acc` is the `updated_profiles` accumulator.  A data-layer error
aborts the loop like a raised exception; the store travels on unchanged by
the abort, keeping the writes of the completed iterations. -/
def processEmails (ops : StoreOps) (ud : UpdateData) :
    List String → List Profile → Store → Except String (List Profile) × Store
  | [], acc, s => (.ok acc, s)
  | email :: rest, acc, s =>
    -- if not email or not email.strip(): continue
    if pyStrip email = "" then processEmails ops ud rest acc s
    else
      -- email = email.strip(); profile = get_user_profile(email)
      match ops.get_user_profile (pyStrip email) s with
      | (.error e, s1) => (.error e, s1)
      | (.ok profOpt, s1) =>
        -- if not profile: profile = create_default_profile(email, name=email.split('@')[0])
        match (match profOpt with
               | some p => (Except.ok (some p), s1)
               | none => ops.create_default_profile (pyStrip email)
                   (beforeAt (pyStrip email)) s1) with
        | (.error e, s2) => (.error e, s2)
        | (.ok profOpt2, s2) =>
          match profOpt2 with
          | none => processEmails ops ud rest acc s2
          | some _ =>
            -- updated_profile = update_user_profile(email, **update_data)
            match ops.update_user_profile (pyStrip email) ud s2 with
            | (.error e, s3) => (.error e, s3)
            | (.ok updOpt, s3) =>
              -- if updated_profile: updated_profiles.append(updated_profile.to_dict())
              match updOpt with
              | some up => processEmails ops ud rest (acc ++ [up]) s3
              | none => processEmails ops ud rest acc s3

/-- The `try` block of `update_config` (lines 64–137). -/
def update_config_try (ops : StoreOps) (req : ConfigRequest) (s : Store) :
    Except String Ans × Store :=
  -- if not receiver_emails: return jsonify({'error': …}), 400
  if req.receiver_emails.isEmpty then
    (.ok (400, .errorBody "At least one receiver email is required"), s)
  else
    match processEmails ops (buildUpdateData req) req.receiver_emails [] s with
    | (.error e, s') => (.error e, s')
    | (.ok ups, s') => (.ok (200, .updateOk ups ups.length), s')

/-- `POST /api/config` (lines 61–141).  The `.error` arm is the
`except Exception as e: return jsonify({'error': str(e)}), 500` clause;
the store keeps whatever the loop committed before the exception, since
the `except` clause performs no rollback.  The handler never touches the
global `Config` object (lines 129–131 are a comment noting that global
settings are deliberately left alone). -/
def update_config (ops : StoreOps) (req : ConfigRequest) (st : ServerState) :
    Ans × ServerState :=
  match update_config_try ops req st.store with
  | (.ok ans, s') => (ans, { st with store := s' })
  | (.error e, s') => ((500, .errorBody e), { st with store := s' })

/-- `GET /api/config` (lines 44–59). -/
def get_config (ops : StoreOps) (cfg : GlobalConfig) (s : Store) : Ans × Store :=
  match ops.get_all_active_profiles s with
  | (.error e, s') => ((500, .errorBody e), s')
  | (.ok profiles, s') =>
    ((200, .configBody cfg.PREFERRED_LOCATIONS cfg.MIN_SALARY cfg.MAX_SALARY
        (if cfg.EMAIL_RECIPIENT ≠ "" then [cfg.EMAIL_RECIPIENT] else []) profiles), s')

/-- `GET /api/profiles` (lines 143–153). -/
def get_profiles (ops : StoreOps) (s : Store) : Ans × Store :=
  match ops.get_all_active_profiles s with
  | (.error e, s') => ((500, .errorBody e), s')
  | (.ok profiles, s') => ((200, .profilesBody profiles), s')

/-- `GET /api/profiles/<email>` (lines 155–166). -/
def get_profile (ops : StoreOps) (email : String) (s : Store) : Ans × Store :=
  match ops.get_user_profile email s with
  | (.error e, s') => ((500, .errorBody e), s')
  | (.ok (some p), s') => ((200, .profileBody p), s')
  | (.ok none, s') => ((404, .errorBody "Profile not found"), s')

/-- The effect of one iteration of the per-email loop on the store alone,
under `specOps` (the accumulator does not influence the store). -/
def storeStep (ud : UpdateData) (s : Store) (email : String) : Store :=
  if pyStrip email = "" then s
  else
    let em := pyStrip email
    let s1 := match s.find? (fun p => p.email == em) with
      | some _ => s
      | none => s ++ [defaultProfile em (beforeAt em)]
    s1.map (fun p => if p.email == em then applyUpdate ud p else p)

/-- Every row for email `x` already carries the update `ud`. -/
def fixedAt (ud : UpdateData) (x : String) (s : Store) : Prop :=
  ∀ p ∈ s, p.email = x → applyUpdate ud p = p

/-- Some row for email `x` exists. -/
def presentAt (x : String) (s : Store) : Prop := ∃ p ∈ s, p.email = x

/-- A throwaway global configuration, used to build concrete server states. -/
def cfg0 : GlobalConfig := ⟨[], 0, 0, "", true⟩

/-- A server state with an empty profile table. -/
def st0 : ServerState := ⟨[], cfg0⟩

/-- A request body with every field at its extraction default. -/
def reqBase : ConfigRequest :=
  { receiver_emails := [], locations := [], salary_ranges := []
    experience_min := none, experience_max := none, job_title := "" }

/-- The spec's salary example: `salary_ranges=[{min:5,max:10},{min:8,max:20}]`. -/
def reqSalary : ConfigRequest :=
  { reqBase with receiver_emails := ["a@x.com"]
                 salary_ranges := [⟨some 5, some 10⟩, ⟨some 8, some 20⟩] }

/-- A salary request whose first range has `min: 0`. -/
def reqSalaryZero : ConfigRequest :=
  { reqBase with receiver_emails := ["a@x.com"]
                 salary_ranges := [⟨some 0, some 10⟩, ⟨some 8, some 20⟩] }

/-- A locations request whose single entry carries surrounding whitespace. -/
def reqLocPad : ConfigRequest :=
  { reqBase with receiver_emails := ["a@x.com"], locations := [" NYC "] }

/-- A request with an empty job title and an `experience_max` bound. -/
def reqRole : ConfigRequest :=
  { reqBase with receiver_emails := ["a@x.com"], experience_max := some 9 }

/-- A profile whose current role is already set. -/
def pEngineer : Profile := { defaultProfile "a@x.com" "a" with current_role := "Engineer" }

/-- A store-operations instance in which every database call raises
without writing anything. -/
def failOps : StoreOps where
  get_all_active_profiles s := (.error "database unavailable", s)
  get_user_profile _ s := (.error "database unavailable", s)
  create_default_profile _ _ s := (.error "database unavailable", s)
  update_user_profile _ _ s := (.error "database unavailable", s)

/-- A store-operations instance that behaves like `specOps` except that the
row update for `b@y.com` raises; the writes of earlier calls stay
committed. -/
def flakyOps : StoreOps where
  get_all_active_profiles s := (.ok (s.filter (fun p => p.is_active)), s)
  get_user_profile email s := (.ok (s.find? (fun p => p.email == email)), s)
  create_default_profile email name s :=
    let p := defaultProfile email name
    (.ok (some p), s ++ [p])
  update_user_profile email ud s :=
    if email = "b@y.com" then (.error "update failed", s)
    else
      let s' := s.map (fun p => if p.email == email then applyUpdate ud p else p)
      (.ok (s'.find? (fun p => p.email == email)), s')

/-- A request addressed to two recipient emails. -/
def reqTwo : ConfigRequest := { reqBase with receiver_emails := ["a@x.com", "b@y.com"] }

theorem optGetD_getD {α : Type} (o : Option α) (x : α) : o.getD (o.getD x) = o.getD x := by
  cases o <;> rfl

theorem applyUpdate_idem (ud : UpdateData) (p : Profile) :
    applyUpdate ud (applyUpdate ud p) = applyUpdate ud p := by
  simp [applyUpdate, optGetD_getD]

theorem applyUpdate_email (ud : UpdateData) (p : Profile) :
    (applyUpdate ud p).email = p.email := rfl

theorem listMapSelf {α : Type} (l : List α) (f : α → α) (h : ∀ a ∈ l, f a = a) :
    l.map f = l := by
  induction l with
  | nil => rfl
  | cons a t ih =>
    simp only [List.map_cons, h a (by simp)]
    rw [ih (fun b hb => h b (by simp [hb]))]

theorem storeStep_blank (ud : UpdateData) (s : Store) (e : String) (hb : pyStrip e = "") :
    storeStep ud s e = s := by
  simp only [storeStep, if_pos hb]

theorem storeStep_eq (ud : UpdateData) (s : Store) (e : String) (hb : pyStrip e ≠ "") :
    storeStep ud s e =
      ((match s.find? (fun p => p.email == pyStrip e) with
        | some _ => s
        | none => s ++ [defaultProfile (pyStrip e) (beforeAt (pyStrip e))] : Store)).map
        (fun (p : Profile) => if p.email == pyStrip e then applyUpdate ud p else p) := by
  simp only [storeStep, if_neg hb]

theorem processEmails_blank (ops : StoreOps) (ud : UpdateData) (email : String)
    (rest : List String) (acc : List Profile) (s : Store) (hb : pyStrip email = "") :
    processEmails ops ud (email :: rest) acc s = processEmails ops ud rest acc s := by
  simp only [processEmails, if_pos hb]

theorem processEmails_specOps_cons (ud : UpdateData) (email : String) (rest : List String)
    (acc : List Profile) (s : Store) (hb : pyStrip email ≠ "") :
    processEmails specOps ud (email :: rest) acc s =
      (let s2 : Store := ((match s.find? (fun p => p.email == pyStrip email) with
          | some _ => s
          | none => s ++ [defaultProfile (pyStrip email) (beforeAt (pyStrip email))] : Store)).map
          (fun (p : Profile) => if p.email == pyStrip email then applyUpdate ud p else p)
       match s2.find? (fun p => p.email == pyStrip email) with
       | some up => processEmails specOps ud rest (acc ++ [up]) s2
       | none => processEmails specOps ud rest acc s2) := by
  show (if pyStrip email = "" then _ else _) = _
  rw [if_neg hb,
    show specOps.get_user_profile (pyStrip email) s
        = (Except.ok (s.find? (fun p => p.email == pyStrip email)), s) from rfl]
  cases hf : s.find? (fun p => p.email == pyStrip email) <;> simp only [hf] <;> rfl

theorem processEmails_specOps_ok (ud : UpdateData) :
    ∀ (emails : List String) (acc : List Profile) (s : Store),
      ∃ ups, processEmails specOps ud emails acc s = (.ok ups, emails.foldl (storeStep ud) s) := by
  intro emails
  induction emails with
  | nil => exact fun acc s => ⟨acc, rfl⟩
  | cons email rest ih =>
    intro acc s
    by_cases hb : pyStrip email = ""
    · rw [processEmails_blank specOps ud email rest acc s hb, List.foldl_cons,
        storeStep_blank ud s email hb]
      exact ih acc s
    · rw [processEmails_specOps_cons ud email rest acc s hb, List.foldl_cons,
        storeStep_eq ud s email hb]
      cases hu : (((match s.find? (fun p => p.email == pyStrip email) with
          | some _ => s
          | none => s ++ [defaultProfile (pyStrip email) (beforeAt (pyStrip email))] : Store)).map
          (fun (p : Profile) => if p.email == pyStrip email then applyUpdate ud p else p)).find?
          (fun p => p.email == pyStrip email) with
      | some up => simp only [hu]; exact ih (acc ++ [up]) _
      | none => simp only [hu]; exact ih acc _

theorem stepFun_email (ud : UpdateData) (em : String) (q : Profile) :
    ((fun r : Profile => if r.email == em then applyUpdate ud r else r) q).email = q.email := by
  by_cases h : (q.email == em) = true
  · simp only [if_pos h]
    exact applyUpdate_email ud q
  · simp only [if_neg h]

theorem mem_mapStep {ud : UpdateData} {em : String} {l : Store} {p : Profile}
    (hp : p ∈ l.map (fun q => if q.email == em then applyUpdate ud q else q)) :
    ∃ q, q ∈ l ∧ ((q.email = em ∧ p = applyUpdate ud q) ∨ (q.email ≠ em ∧ p = q)) := by
  simp only [List.mem_map] at hp
  obtain ⟨q, hq, heq⟩ := hp
  by_cases hqe : (q.email == em) = true
  · exact ⟨q, hq, Or.inl ⟨by simpa using hqe, by rw [← heq, if_pos hqe]⟩⟩
  · exact ⟨q, hq, Or.inr ⟨by simpa using hqe, by rw [← heq, if_neg hqe]⟩⟩

theorem storeStep_presentAt (ud : UpdateData) (x e : String) (s : Store)
    (h : presentAt x s) : presentAt x (storeStep ud s e) := by
  obtain ⟨p, hp, hpx⟩ := h
  by_cases hb : pyStrip e = ""
  · rw [storeStep_blank ud s e hb]
    exact ⟨p, hp, hpx⟩
  · rw [storeStep_eq ud s e hb]
    refine ⟨(fun r : Profile => if r.email == pyStrip e then applyUpdate ud r else r) p,
      List.mem_map_of_mem _ ?_, by rw [stepFun_email]; exact hpx⟩
    cases hf : s.find? (fun r => r.email == pyStrip e) with
    | none => exact List.mem_append_left _ hp
    | some _ => exact hp

theorem storeStep_fixedAt (ud : UpdateData) (x e : String) (s : Store)
    (h : fixedAt ud x s) : fixedAt ud x (storeStep ud s e) := by
  by_cases hb : pyStrip e = ""
  · rw [storeStep_blank ud s e hb]
    exact h
  · rw [storeStep_eq ud s e hb]
    intro p hp hpx
    obtain ⟨q, hq, hcase⟩ := mem_mapStep hp
    rcases hcase with ⟨_, rfl⟩ | ⟨hne, heq⟩
    · exact applyUpdate_idem ud q
    · subst heq
      cases hf : s.find? (fun r => r.email == pyStrip e) with
      | none =>
        rw [hf] at hq
        rcases List.mem_append.mp hq with hq' | hq'
        · exact h p hq' hpx
        · rcases List.mem_singleton.mp hq' with rfl
          exact absurd rfl hne
      | some _ =>
        rw [hf] at hq
        exact h p hq hpx

theorem storeStep_establishes (ud : UpdateData) (e : String) (s : Store) (hb : pyStrip e ≠ "") :
    presentAt (pyStrip e) (storeStep ud s e) ∧ fixedAt ud (pyStrip e) (storeStep ud s e) := by
  rw [storeStep_eq ud s e hb]
  constructor
  · cases hf : s.find? (fun r => r.email == pyStrip e) with
    | none =>
      refine ⟨(fun r : Profile => if r.email == pyStrip e then applyUpdate ud r else r)
        (defaultProfile (pyStrip e) (beforeAt (pyStrip e))),
        List.mem_map_of_mem _ (List.mem_append_right _ (List.mem_singleton_self _)),
        by rw [stepFun_email]; rfl⟩
    | some q =>
      have hqmem := List.mem_of_find?_eq_some hf
      have hqe : (q.email == pyStrip e) = true := by
        have hq := List.find?_some hf
        simpa using hq
      exact ⟨(fun r : Profile => if r.email == pyStrip e then applyUpdate ud r else r) q,
        List.mem_map_of_mem _ hqmem, by rw [stepFun_email]; exact beq_iff_eq.mp hqe⟩
  · intro p hp hpx
    obtain ⟨q, hq, hcase⟩ := mem_mapStep hp
    rcases hcase with ⟨_, rfl⟩ | ⟨hne, heq⟩
    · exact applyUpdate_idem ud q
    · subst heq
      exact absurd hpx hne

theorem storeStep_id (ud : UpdateData) (e : String) (s : Store)
    (hp : presentAt (pyStrip e) s) (hf : fixedAt ud (pyStrip e) s) :
    storeStep ud s e = s := by
  by_cases hb : pyStrip e = ""
  · exact storeStep_blank ud s e hb
  · rw [storeStep_eq ud s e hb]
    obtain ⟨q, hq, hqe⟩ := hp
    have hfind : (s.find? (fun r => r.email == pyStrip e)).isSome :=
      List.find?_isSome.mpr ⟨q, hq, by simpa using hqe⟩
    obtain ⟨q0, hq0⟩ := Option.isSome_iff_exists.mp hfind
    rw [hq0]
    apply listMapSelf
    intro p hpmem
    show (if p.email == pyStrip e then applyUpdate ud p else p) = p
    by_cases hpe : (p.email == pyStrip e) = true
    · rw [if_pos hpe]
      exact hf p hpmem (by simpa using hpe)
    · rw [if_neg hpe]

theorem foldl_storeStep_preserves (ud : UpdateData) (x : String) :
    ∀ (L : List String) (s : Store), presentAt x s → fixedAt ud x s →
      presentAt x (L.foldl (storeStep ud) s) ∧ fixedAt ud x (L.foldl (storeStep ud) s) := by
  intro L
  induction L with
  | nil => exact fun s hp hf => ⟨hp, hf⟩
  | cons a rest ih =>
    intro s hp hf
    rw [List.foldl_cons]
    exact ih (storeStep ud s a) (storeStep_presentAt ud x a s hp) (storeStep_fixedAt ud x a s hf)

theorem foldl_storeStep_establishes (ud : UpdateData) :
    ∀ (L : List String) (s : Store) (e : String), e ∈ L → pyStrip e ≠ "" →
      presentAt (pyStrip e) (L.foldl (storeStep ud) s) ∧
        fixedAt ud (pyStrip e) (L.foldl (storeStep ud) s) := by
  intro L
  induction L with
  | nil =>
    intro s e he
    cases he
  | cons a rest ih =>
    intro s e he hb
    rw [List.foldl_cons]
    rcases List.mem_cons.mp he with rfl | hmem
    · obtain ⟨hp, hf⟩ := storeStep_establishes ud e s hb
      exact foldl_storeStep_preserves ud (pyStrip e) rest (storeStep ud s e) hp hf
    · exact ih (storeStep ud s a) e hmem hb

theorem foldl_storeStep_id (ud : UpdateData) :
    ∀ (L : List String) (s : Store),
      (∀ e ∈ L, pyStrip e = "" ∨ (presentAt (pyStrip e) s ∧ fixedAt ud (pyStrip e) s)) →
      L.foldl (storeStep ud) s = s := by
  intro L
  induction L with
  | nil =>
    intro s _
    rfl
  | cons a rest ih =>
    intro s h
    have ha : storeStep ud s a = s := by
      rcases h a (List.mem_cons_self a rest) with hb | ⟨hp, hf⟩
      · exact storeStep_blank ud s a hb
      · exact storeStep_id ud a s hp hf
    rw [List.foldl_cons, ha]
    exact ih s (fun e he => h e (List.mem_cons_of_mem a he))

theorem foldl_storeStep_idem (ud : UpdateData) (L : List String) (s : Store) :
    L.foldl (storeStep ud) (L.foldl (storeStep ud) s) = L.foldl (storeStep ud) s := by
  apply foldl_storeStep_id
  intro e he
  by_cases hb : pyStrip e = ""
  · exact Or.inl hb
  · exact Or.inr (foldl_storeStep_establishes ud L s e he hb)

theorem processEmails_all_blank (ops : StoreOps) (ud : UpdateData) :
    ∀ (L : List String) (acc : List Profile) (s : Store), (∀ e ∈ L, pyStrip e = "") →
      processEmails ops ud L acc s = (.ok acc, s) := by
  intro L
  induction L with
  | nil =>
    intro acc s _
    rfl
  | cons a rest ih =>
    intro acc s h
    rw [processEmails_blank ops ud a rest acc s (h a (List.mem_cons_self a rest))]
    exact ih acc s (fun e he => h e (List.mem_cons_of_mem a he))

theorem applyUpdate_pref (ud : UpdateData) (p : Profile) :
    (applyUpdate ud p).preferred_locations = ud.preferred_locations.getD p.preferred_locations := rfl

theorem applyUpdate_salary_min (ud : UpdateData) (p : Profile) :
    (applyUpdate ud p).expected_salary_min = ud.expected_salary_min.getD p.expected_salary_min := rfl

theorem applyUpdate_salary_max (ud : UpdateData) (p : Profile) :
    (applyUpdate ud p).expected_salary_max = ud.expected_salary_max.getD p.expected_salary_max := rfl

theorem applyUpdate_exp (ud : UpdateData) (p : Profile) :
    (applyUpdate ud p).experience_years = ud.experience_years.getD p.experience_years := rfl

theorem applyUpdate_role (ud : UpdateData) (p : Profile) :
    (applyUpdate ud p).current_role = ud.current_role.getD p.current_role := rfl

theorem applyUpdate_skills (ud : UpdateData) (p : Profile) :
    (applyUpdate ud p).primary_skills = ud.primary_skills.getD p.primary_skills := rfl

theorem udLocations_other (req : ConfigRequest) (ud : UpdateData) :
    (udLocations req ud).expected_salary_min = ud.expected_salary_min ∧
    (udLocations req ud).expected_salary_max = ud.expected_salary_max ∧
    (udLocations req ud).experience_years = ud.experience_years ∧
    (udLocations req ud).current_role = ud.current_role ∧
    (udLocations req ud).primary_skills = ud.primary_skills := by
  simp only [udLocations]
  split <;> exact ⟨rfl, rfl, rfl, rfl, rfl⟩

theorem udLocations_pref (req : ConfigRequest) (ud : UpdateData) :
    (udLocations req ud).preferred_locations =
      if req.locations.isEmpty then ud.preferred_locations
      else some ((req.locations.filter (fun loc => pyStrip loc ≠ "")).map (fun loc => pyStrip loc)) := by
  simp only [udLocations]
  split <;> rfl

theorem udSalary_other (req : ConfigRequest) (ud : UpdateData) :
    (udSalary req ud).preferred_locations = ud.preferred_locations ∧
    (udSalary req ud).experience_years = ud.experience_years ∧
    (udSalary req ud).current_role = ud.current_role ∧
    (udSalary req ud).primary_skills = ud.primary_skills := by
  simp only [udSalary]
  split
  · exact ⟨rfl, rfl, rfl, rfl⟩
  · cases (allMins req.salary_ranges).min? <;> cases (allMaxs req.salary_ranges).max? <;>
      exact ⟨rfl, rfl, rfl, rfl⟩

theorem udSalary_min (req : ConfigRequest) (ud : UpdateData) :
    (udSalary req ud).expected_salary_min =
      if req.salary_ranges.isEmpty then ud.expected_salary_min
      else
        match (allMins req.salary_ranges).min? with
        | some m => some m
        | none => ud.expected_salary_min := by
  simp only [udSalary]
  split
  · rfl
  · cases (allMins req.salary_ranges).min? <;> cases (allMaxs req.salary_ranges).max? <;> rfl

theorem udSalary_max (req : ConfigRequest) (ud : UpdateData) :
    (udSalary req ud).expected_salary_max =
      if req.salary_ranges.isEmpty then ud.expected_salary_max
      else
        match (allMaxs req.salary_ranges).max? with
        | some m => some m
        | none => ud.expected_salary_max := by
  simp only [udSalary]
  split
  · rfl
  · cases (allMins req.salary_ranges).min? <;> cases (allMaxs req.salary_ranges).max? <;> rfl

theorem udExperience_fields (req : ConfigRequest) (ud : UpdateData) :
    (udExperience req ud).preferred_locations = ud.preferred_locations ∧
    (udExperience req ud).expected_salary_min = ud.expected_salary_min ∧
    (udExperience req ud).expected_salary_max = ud.expected_salary_max ∧
    (udExperience req ud).current_role = ud.current_role ∧
    (udExperience req ud).primary_skills = ud.primary_skills ∧
    (udExperience req ud).experience_years =
      (match req.experience_min with | some v => some v | none => ud.experience_years) := by
  simp only [udExperience]
  cases req.experience_min <;> exact ⟨rfl, rfl, rfl, rfl, rfl, rfl⟩

theorem udTitle_fields (req : ConfigRequest) (ud : UpdateData) :
    (udTitle req ud).preferred_locations = ud.preferred_locations ∧
    (udTitle req ud).expected_salary_min = ud.expected_salary_min ∧
    (udTitle req ud).expected_salary_max = ud.expected_salary_max ∧
    (udTitle req ud).experience_years = ud.experience_years := by
  simp only [udTitle]
  split_ifs <;> exact ⟨rfl, rfl, rfl, rfl⟩

theorem udTitle_role (req : ConfigRequest) (ud : UpdateData) :
    (udTitle req ud).current_role =
      if req.job_title = "" then ud.current_role else some req.job_title := by
  simp only [udTitle]
  split_ifs <;> rfl

theorem udTitle_skills (req : ConfigRequest) (ud : UpdateData) (h : ¬ req.job_title = "") :
    (udTitle req ud).primary_skills =
      (if strContainsSub (pyLower req.job_title) "python" then
        some ["Python", "JavaScript", "React"]
      else if strContainsSub (pyLower req.job_title) "react"
          || strContainsSub (pyLower req.job_title) "frontend" then
        some ["React", "JavaScript", "TypeScript"]
      else if strContainsSub (pyLower req.job_title) "backend" then
        some ["Python", "Java", "Node.js"]
      else ud.primary_skills) := by
  simp only [udTitle, if_neg h]
  split_ifs <;> rfl

theorem buildUpdateData_pref (req : ConfigRequest) :
    (buildUpdateData req).preferred_locations =
      if req.locations.isEmpty then none
      else some ((req.locations.filter (fun loc => pyStrip loc ≠ "")).map (fun loc => pyStrip loc)) := by
  unfold buildUpdateData
  rw [(udTitle_fields req _).1, (udExperience_fields req _).1, (udSalary_other req _).1,
    udLocations_pref req _]
  rfl

theorem buildUpdateData_salary_min (req : ConfigRequest) :
    (buildUpdateData req).expected_salary_min =
      if req.salary_ranges.isEmpty then none
      else
        match (allMins req.salary_ranges).min? with
        | some m => some m
        | none => none := by
  unfold buildUpdateData
  rw [(udTitle_fields req _).2.1, (udExperience_fields req _).2.1, udSalary_min req _,
    (udLocations_other req _).1]
  rfl

theorem buildUpdateData_salary_max (req : ConfigRequest) :
    (buildUpdateData req).expected_salary_max =
      if req.salary_ranges.isEmpty then none
      else
        match (allMaxs req.salary_ranges).max? with
        | some m => some m
        | none => none := by
  unfold buildUpdateData
  rw [(udTitle_fields req _).2.2.1, (udExperience_fields req _).2.2.1, udSalary_max req _,
    (udLocations_other req _).2.1]
  rfl

theorem buildUpdateData_exp (req : ConfigRequest) :
    (buildUpdateData req).experience_years =
      match req.experience_min with | some v => some v | none => none := by
  unfold buildUpdateData
  rw [(udTitle_fields req _).2.2.2, (udExperience_fields req _).2.2.2.2.2,
    (udSalary_other req _).2.1, (udLocations_other req _).2.2.1]
  rfl

theorem buildUpdateData_role (req : ConfigRequest) :
    (buildUpdateData req).current_role =
      if req.job_title = "" then none else some req.job_title := by
  unfold buildUpdateData
  rw [udTitle_role req _, (udExperience_fields req _).2.2.2.1, (udSalary_other req _).2.2.1,
    (udLocations_other req _).2.2.2.1]
  rfl

theorem buildUpdateData_skills (req : ConfigRequest) (h : ¬ req.job_title = "") :
    (buildUpdateData req).primary_skills =
      (if strContainsSub (pyLower req.job_title) "python" then
        some ["Python", "JavaScript", "React"]
      else if strContainsSub (pyLower req.job_title) "react"
          || strContainsSub (pyLower req.job_title) "frontend" then
        some ["React", "JavaScript", "TypeScript"]
      else if strContainsSub (pyLower req.job_title) "backend" then
        some ["Python", "Java", "Node.js"]
      else none) := by
  unfold buildUpdateData
  rw [udTitle_skills req _ h, (udExperience_fields req _).2.2.2.2.1, (udSalary_other req _).2.2.2,
    (udLocations_other req _).2.2.2.2]
  rfl

theorem update_config_specOps_state (req : ConfigRequest) (st : ServerState) :
    (update_config specOps req st).2 =
      if req.receiver_emails.isEmpty then st
      else { st with store := req.receiver_emails.foldl (storeStep (buildUpdateData req)) st.store } := by
  by_cases he : req.receiver_emails.isEmpty
  · simp [update_config, update_config_try, he]
  · obtain ⟨ups, hups⟩ := processEmails_specOps_ok (buildUpdateData req) req.receiver_emails [] st.store
    simp [update_config, update_config_try, he, hups]

/-- C5: repeating an identical `POST /api/config` body leaves every profile
(and the whole server state) exactly as after a single execution: the
per-profile update merges the same field values a second time, so the
second pass is the identity on the store. -/
theorem C5_update_config_idempotent (req : ConfigRequest) (st : ServerState) :
    (update_config specOps req ((update_config specOps req st).2)).2 =
      (update_config specOps req st).2 := by
  have h1 := update_config_specOps_state req st
  have h2 := update_config_specOps_state req ((update_config specOps req st).2)
  rw [h2, h1]
  by_cases he : req.receiver_emails.isEmpty
  · simp [he]
  · simp [he, foldl_storeStep_idem]

/-- C2: a `POST /api/config` body with an empty `receiver_emails` list is
rejected with HTTP 400 and an error body, and the server state — in
particular every profile — is left untouched (this holds for any data
layer, since the check precedes every store call). -/
theorem C2_empty_emails_rejected (ops : StoreOps) (req : ConfigRequest) (st : ServerState)
    (h : req.receiver_emails = []) :
    update_config ops req st =
      ((400, Resp.errorBody "At least one receiver email is required"), st) := by
  simp [update_config, update_config_try, h]

/-- Witness for C2 at the empty request and the empty store. -/
theorem C2_empty_emails_rejected_witness :
    update_config specOps reqBase st0 =
      ((400, Resp.errorBody "At least one receiver email is required"), st0) :=
  C2_empty_emails_rejected specOps reqBase st0 rfl

/-- C9: `POST /api/config` never mutates the global configuration object:
whatever the data layer does, the handler's resulting server state carries
the starting `GlobalConfig` unchanged. -/
theorem C9_global_config_untouched (ops : StoreOps) (req : ConfigRequest) (st : ServerState) :
    ((update_config ops req st).2).config = st.config := by
  unfold update_config
  rcases hr : update_config_try ops req st.store with ⟨res, s2⟩
  cases res <;> rfl

/-- C6: `GET /api/profiles/<email>` returns 404 with an `error` body when no
profile row carries the requested email, and returns the stored profile
object (status 200) when the lookup finds one. -/
theorem C6_get_profile_lookup (s : Store) (email : String) :
    ((∀ p ∈ s, p.email ≠ email) →
      get_profile specOps email s = ((404, Resp.errorBody "Profile not found"), s)) ∧
    (∀ p, s.find? (fun q => q.email == email) = some p →
      get_profile specOps email s = ((200, Resp.profileBody p), s)) := by
  constructor
  · intro h
    have hf : s.find? (fun q => q.email == email) = none := by
      rw [List.find?_eq_none]
      intro q hq
      simpa using h q hq
    simp [get_profile, specOps, hf]
  · intro p hf
    simp [get_profile, specOps, hf]

/-- Witness for C6: the 404 branch on the empty store and the 200 branch on
a one-row store. -/
theorem C6_get_profile_lookup_witness :
    get_profile specOps "a@x.com" [] = ((404, Resp.errorBody "Profile not found"), []) ∧
    get_profile specOps "a@x.com" [pEngineer] = ((200, Resp.profileBody pEngineer), [pEngineer]) :=
  ⟨(C6_get_profile_lookup [] "a@x.com").1 (by simp),
    (C6_get_profile_lookup [pEngineer] "a@x.com").2 pEngineer (by decide)⟩

/-- C10: a non-empty `receiver_emails` list made only of blank strings
passes the emptiness check (no 400): every blank email is skipped, no
profile is created or updated, and the handler answers 200 with an empty
profile list and `updated_count = 0`; moreover `updated_count` always
equals the length of the returned profile list. -/
theorem C10_blank_emails_skipped :
    (∀ (req : ConfigRequest) (st : ServerState), req.receiver_emails ≠ [] →
      (∀ e ∈ req.receiver_emails, pyStrip e = "") →
      update_config specOps req st = ((200, Resp.updateOk [] 0), st)) ∧
    (∀ (ops : StoreOps) (req : ConfigRequest) (st : ServerState) (ups : List Profile) (n : Nat),
      (update_config ops req st).1 = (200, Resp.updateOk ups n) → n = ups.length) := by
  constructor
  · intro req st h1 h2
    have hne : req.receiver_emails.isEmpty = false := by
      cases hl : req.receiver_emails with
      | nil => exact absurd hl h1
      | cons a t => rfl
    have hp := processEmails_all_blank specOps (buildUpdateData req) req.receiver_emails [] st.store h2
    simp [update_config, update_config_try, hne, hp]
  · intro ops req st ups n h
    unfold update_config update_config_try at h
    by_cases he : req.receiver_emails.isEmpty
    · simp [he] at h
    · rcases hp : processEmails ops (buildUpdateData req) req.receiver_emails [] st.store
        with ⟨res, s2⟩
      cases res with
      | error e => simp [he, hp] at h
      | ok ups2 =>
        simp [he, hp] at h
        rcases h with ⟨rfl, rfl⟩
        rfl

/-- Witness for C10 at a request whose two emails are blank. -/
theorem C10_blank_emails_skipped_witness :
    update_config specOps { reqBase with receiver_emails := ["  ", ""] } st0 =
      ((200, Resp.updateOk [] 0), st0) :=
  C10_blank_emails_skipped.1 { reqBase with receiver_emails := ["  ", ""] } st0
    (by decide) (by decide)

/-- C8: an exception raised by the profile store inside any of the four
data-backed handlers is caught and turned into HTTP 500 with the
exception's message as the `error` body, instead of propagating.  For
`POST /config` the hypothesis is fully general — any raise by any store
call (lookup, creation or row update) at any position of the email loop
surfaces as the loop's error outcome — and the resulting server state
keeps the store exactly as the raising loop left it: writes committed by
earlier iterations persist, since the `except` clause does not roll back. -/
theorem C8_store_errors_become_500 :
    (∀ (ops : StoreOps) (cfg : GlobalConfig) (s : Store) (e : String) (s2 : Store),
      ops.get_all_active_profiles s = (.error e, s2) →
      get_config ops cfg s = ((500, Resp.errorBody e), s2)) ∧
    (∀ (ops : StoreOps) (s : Store) (e : String) (s2 : Store),
      ops.get_all_active_profiles s = (.error e, s2) →
      get_profiles ops s = ((500, Resp.errorBody e), s2)) ∧
    (∀ (ops : StoreOps) (email : String) (s : Store) (e : String) (s2 : Store),
      ops.get_user_profile email s = (.error e, s2) →
      get_profile ops email s = ((500, Resp.errorBody e), s2)) ∧
    (∀ (ops : StoreOps) (req : ConfigRequest) (st : ServerState) (e : String) (s2 : Store),
      processEmails ops (buildUpdateData req) req.receiver_emails [] st.store = (.error e, s2) →
      update_config ops req st = ((500, Resp.errorBody e), { st with store := s2 })) := by
  refine ⟨?_, ?_, ?_, ?_⟩
  · intro ops cfg s e s2 h
    simp [get_config, h]
  · intro ops s e s2 h
    simp [get_profiles, h]
  · intro ops email s e s2 h
    simp [get_profile, h]
  · intro ops req st e s2 h
    have hne : req.receiver_emails.isEmpty = false := by
      cases hl : req.receiver_emails with
      | nil =>
        rw [hl] at h
        simp [processEmails] at h
      | cons a t => rfl
    simp [update_config, update_config_try, hne, h]

/-- Witness for C8: the three GET handlers against a data layer whose every
call raises, and `POST /config` against a two-email run whose second row
update raises after the first email's profile was created and written —
the answer is the 500 error body and both committed rows survive. -/
theorem C8_store_errors_become_500_witness :
    get_config failOps cfg0 [] = ((500, Resp.errorBody "database unavailable"), []) ∧
    get_profiles failOps [] = ((500, Resp.errorBody "database unavailable"), []) ∧
    get_profile failOps "a@x.com" [] = ((500, Resp.errorBody "database unavailable"), []) ∧
    update_config flakyOps reqTwo st0 =
      ((500, Resp.errorBody "update failed"),
        { st0 with store := [defaultProfile "a@x.com" "a", defaultProfile "b@y.com" "b"] }) := by
  obtain ⟨h1, h2, h3, h4⟩ := C8_store_errors_become_500
  exact ⟨h1 failOps cfg0 [] "database unavailable" [] rfl,
    h2 failOps [] "database unavailable" [] rfl,
    h3 failOps "a@x.com" [] "database unavailable" [] rfl,
    h4 flakyOps reqTwo st0 "update failed"
      [defaultProfile "a@x.com" "a", defaultProfile "b@y.com" "b"] rfl⟩

/-- C1 counterexample: with `salary_ranges=[{min:0,max:10},{min:8,max:20}]`
the minimum over the `min` fields of all supplied ranges is 0, but the
profile resulting from the update has `expected_salary_min = 8`: the
truthiness filter `if r.get('min')` drops any range whose `min` is 0 (or
absent) before aggregating, so the claimed min-of-all-mins does not hold. -/
theorem C1_counterexample :
    (update_config specOps reqSalaryZero st0).2.store.map (fun p => p.expected_salary_min)
        = [8] ∧
    (reqSalaryZero.salary_ranges.map (fun r => r.min?.getD 0)).min? = some 0 ∧
    ¬ (update_config specOps reqSalaryZero st0).2.store.map (fun p => p.expected_salary_min)
        = [0] := by
  refine ⟨rfl, rfl, by decide⟩

/-- C1 amended: for a non-empty `salary_ranges` list, the updated profile's
`expected_salary_min` is the minimum of the `min` values over the ranges
whose `min` key is present and non-zero (unchanged when no such range
exists), and symmetrically `expected_salary_max` is the maximum of the
present-and-non-zero `max` values; on ranges with all keys present and
non-zero this is exactly min-of-mins / max-of-maxs, so the spec's
`[{min:5,max:10},{min:8,max:20}] ↦ (5, 20)` example holds. -/
theorem C1_amended_salary_aggregation (req : ConfigRequest) (p : Profile)
    (h : req.salary_ranges ≠ []) :
    (applyUpdate (buildUpdateData req) p).expected_salary_min =
      ((allMins req.salary_ranges).min?).getD p.expected_salary_min ∧
    (applyUpdate (buildUpdateData req) p).expected_salary_max =
      ((allMaxs req.salary_ranges).max?).getD p.expected_salary_max := by
  have hne : ¬ req.salary_ranges.isEmpty = true := by
    cases hl : req.salary_ranges with
    | nil => exact absurd hl h
    | cons a t => simp
  constructor
  · rw [applyUpdate_salary_min, buildUpdateData_salary_min, if_neg hne]
    cases (allMins req.salary_ranges).min? <;> rfl
  · rw [applyUpdate_salary_max, buildUpdateData_salary_max, if_neg hne]
    cases (allMaxs req.salary_ranges).max? <;> rfl

/-- Witness for the amended C1 at the spec's example ranges. -/
theorem C1_amended_salary_aggregation_witness :
    (applyUpdate (buildUpdateData reqSalary) (defaultProfile "a@x.com" "a")).expected_salary_min
        = 5 ∧
    (applyUpdate (buildUpdateData reqSalary) (defaultProfile "a@x.com" "a")).expected_salary_max
        = 20 := by
  obtain ⟨h1, h2⟩ := C1_amended_salary_aggregation reqSalary (defaultProfile "a@x.com" "a")
    (by decide)
  rw [h1, h2]
  exact ⟨rfl, rfl⟩

/-- C3: with a non-empty job title, the updated profile's primary skills
follow the keyword cascade on the lowercased title — "python" beats
"react"/"frontend", which beat "backend" — and stay unchanged when no
keyword occurs. -/
theorem C3_skills_from_title (req : ConfigRequest) (p : Profile) (h : req.job_title ≠ "") :
    (applyUpdate (buildUpdateData req) p).primary_skills =
      (if strContainsSub (pyLower req.job_title) "python" then
        ["Python", "JavaScript", "React"]
      else if strContainsSub (pyLower req.job_title) "react"
          || strContainsSub (pyLower req.job_title) "frontend" then
        ["React", "JavaScript", "TypeScript"]
      else if strContainsSub (pyLower req.job_title) "backend" then
        ["Python", "Java", "Node.js"]
      else p.primary_skills) := by
  rw [applyUpdate_skills, buildUpdateData_skills req h]
  split_ifs <;> rfl

/-- Witness for C3 at the spec's `job_title="Backend Engineer"` example. -/
theorem C3_skills_from_title_witness :
    (applyUpdate (buildUpdateData { reqBase with job_title := "Backend Engineer" })
      (defaultProfile "a@x.com" "a")).primary_skills = ["Python", "Java", "Node.js"] := by
  rw [C3_skills_from_title { reqBase with job_title := "Backend Engineer" }
    (defaultProfile "a@x.com" "a") (by decide)]
  decide

/-- C4 counterexample: with `locations=[" NYC "]` the profile ends with
`preferred_locations=["NYC"]`, not the supplied list — each entry is
stripped (and blank entries are dropped), so the replacement is not
wholesale. -/
theorem C4_counterexample :
    (update_config specOps reqLocPad st0).2.store.map (fun p => p.preferred_locations)
        = [["NYC"]] ∧
    reqLocPad.locations = [" NYC "] ∧
    ¬ (update_config specOps reqLocPad st0).2.store.map (fun p => p.preferred_locations)
        = [reqLocPad.locations] := by
  refine ⟨rfl, rfl, by decide⟩

/-- C4 amended: for a non-empty `locations` list, the updated profile's
`preferred_locations` is the supplied list with each entry stripped of
surrounding whitespace and blank entries removed; for entries with no
surrounding whitespace (such as the spec's `["NYC"]`) this is wholesale
replacement. -/
theorem C4_amended_locations_stripped (req : ConfigRequest) (p : Profile)
    (h : req.locations ≠ []) :
    (applyUpdate (buildUpdateData req) p).preferred_locations =
      (req.locations.filter (fun loc => pyStrip loc ≠ "")).map (fun loc => pyStrip loc) := by
  have hne : ¬ req.locations.isEmpty = true := by
    cases hl : req.locations with
    | nil => exact absurd hl h
    | cons a t => simp
  rw [applyUpdate_pref, buildUpdateData_pref, if_neg hne]
  rfl

/-- Witness for the amended C4 at the spec's `locations=["NYC"]` example. -/
theorem C4_amended_locations_stripped_witness :
    (applyUpdate (buildUpdateData { reqBase with locations := ["NYC"] })
      (defaultProfile "a@x.com" "a")).preferred_locations = ["NYC"] := by
  rw [C4_amended_locations_stripped { reqBase with locations := ["NYC"] }
    (defaultProfile "a@x.com" "a") (by decide)]
  decide

/-- C7 counterexample: a request with an empty `job_title` and
`experience_max = 9` leaves an existing profile's role at "Engineer"
(`current_role` does not equal the supplied `job_title`), and its
experience at 0 — `experience_max` is extracted but never written
anywhere. -/
theorem C7_counterexample :
    (update_config specOps reqRole { st0 with store := [pEngineer] }).2.store.map
        (fun p => p.current_role) = ["Engineer"] ∧
    reqRole.job_title = "" ∧
    reqRole.experience_max = some 9 ∧
    (update_config specOps reqRole { st0 with store := [pEngineer] }).2.store.map
        (fun p => p.experience_years) = [0] ∧
    ¬ ("Engineer" = reqRole.job_title) := by
  refine ⟨rfl, rfl, rfl, rfl, by decide⟩

/-- C7 amended: only `experience_min` is written — when non-null it becomes
the profile's `experience_years`, otherwise experience is unchanged;
`experience_max` has no effect on the outcome at all; and `current_role`
equals `job_title` only when the title is non-empty, otherwise it is
unchanged. -/
theorem C7_amended_experience_role (req : ConfigRequest) (p : Profile) :
    (applyUpdate (buildUpdateData req) p).experience_years =
      (match req.experience_min with | some v => v | none => p.experience_years) ∧
    (applyUpdate (buildUpdateData req) p).current_role =
      (if req.job_title = "" then p.current_role else req.job_title) ∧
    buildUpdateData req = buildUpdateData { req with experience_max := none } := by
  refine ⟨?_, ?_, rfl⟩
  · rw [applyUpdate_exp, buildUpdateData_exp]
    cases req.experience_min <;> rfl
  · rw [applyUpdate_role, buildUpdateData_role]
    by_cases hj : req.job_title = ""
    · rw [if_pos hj, if_pos hj]
      rfl
    · rw [if_neg hj, if_neg hj]
      rfl
